import Mathlib

/-!
Verification of the event-dispatcher core (`src/common/Action.ts`).

The dispatcher is embedded as an executable trace semantics: one run of
`Action.run()` is a pure function from an environment (configuration and
collaborator behaviour) and the ambient event context to the list of
observable effects it performs together with its final outcome (returned
normally, or raised an error past itself).  External collaborators
(subclass handler hooks, the error-reporting channel, the telemetry sink)
are oracles recorded in the environment.
-/

namespace VSCodeTriage

/-- A repository identity (owner + name), as in the ambient `context.repo`. -/
structure Repo where
  owner : String
  repo : String
deriving DecidableEq

/-- The relevant fields of `context.payload` for one event.  `issue`,
`pullRequest` and `number` model `payload.issue?.number`,
`payload.pull_request?.number` and the top-level `payload.number`
(an `Option` is `none` when the object is absent from the payload). -/
structure Payload where
  issue : Option Nat
  pullRequest : Option Nat
  number : Option Nat
  action : String
  commentBody : String
  labelName : String
  assigneeLogin : String
deriving DecidableEq

/-- The ambient event context for one run. -/
structure Ctx where
  repo : Repo
  payload : Payload
  eventName : String
  actor : String
deriving DecidableEq

/-- The ambient `context.issue.number` getter from the actions toolkit
library: it returns `(payload.issue || payload.pull_request || payload).number`,
so it falls back from the issue object to the pull-request object to the
top-level payload.  Note this is a different read from the raw
`payload.issue?.number` used by the self-protection guard. -/
def Ctx.issueNumber (c : Ctx) : Option Nat :=
  match c.payload.issue with
  | some n => some n
  | none =>
    match c.payload.pullRequest with
    | some n => some n
    | none => c.payload.number

/-- A JavaScript error value as observed by the dispatcher: its `.message`,
its optional `.stack`, and its `String(e)` rendering.  An empty string is
falsy in JavaScript, so `""` and `none` both fail a truthiness test. -/
structure Err where
  message : String
  stack : Option String
  stringRepr : String
deriving DecidableEq

/-- JavaScript template-literal interpolation of a possibly-undefined
string value: `undefined` renders as the text "undefined". -/
def jsInterp : Option String → String
  | some s => s
  | none => "undefined"

/-- The fallback text `e?.stack || e?.message || String(e)` written to the
basic log sink when structured error reporting fails (JS truthiness:
an empty string falls through to the next alternative). -/
def Err.fallbackText (e : Err) : String :=
  match e.stack with
  | some s => if s = "" then (if e.message = "" then e.stringRepr else e.message) else s
  | none => if e.message = "" then e.stringRepr else e.message

/-- The scoped API client built for the run: issue-scoped
(`new OctoKitIssue(token, context.repo, \x7b number \x7d, \x7b readonly \x7d)`) when an
issue number is present, repository-scoped (`new OctoKit(...)`) otherwise. -/
inductive Client where
  | issueScoped (repo : Repo) (number : Nat) (readonly : Bool)
  | repoScoped (repo : Repo) (readonly : Bool)
deriving DecidableEq

/-- The handler hook invoked by the routing step, together with the
event-specific scalar arguments extracted from the payload. -/
inductive HookCall where
  | onTriggered
  | onCommented (body : String) (actor : String)
  | onOpened
  | onReopened
  | onClosed
  | onLabeled (label : String)
  | onAssigned (assignee : String)
  | onUnassigned (assignee : String)
  | onEdited
  | onMilestoned
deriving DecidableEq

/-- One observable effect of a run, in order of occurrence:
a basic-log line (`safeLog`), an invocation of a handler hook with its
scoped client, a delivered metric sample (the telemetry sink call with its
enriched properties), a delivered FailureReport (`logErrorToIssue`), a
tracked exception, or the process failure marker (`setFailed`). -/
inductive Effect where
  | log (msg : String)
  | hook (client : Client) (call : HookCall)
  | metric (name : String) (value : Nat) (repoTag issueTag idTag userTag : String)
  | reportToIssue (rendered : String) (isAutomated : Bool)
  | trackException (e : Err)
  | setFailed (msg : String)
deriving DecidableEq

/-- Modelled from the spec: the ambient optional configuration value
`errorLoggingIssue` (defined in `common/utils.ts`, outside the dispatcher
source) naming the repository and issue where the bot reports errors. -/
structure ErrorLoggingIssue where
  owner : String
  repo : String
  issue : Nat
deriving DecidableEq

/-- The environment of one run: configuration inputs, the self-protection
configuration, and the behaviour of the external collaborators (identity
provider, telemetry sink, error-reporting channel, subclass hooks, usage
counters).  The `token` input is present because the instance exists: the
class field initialiser already read the required input at construction. -/
structure Env where
  actionId : String
  token : String
  readonlyInput : String
  errorLoggingIssue : Option ErrorLoggingIssue
  identityResult : Except Err String
  aiHandle : Bool
  sinkMetricFails : Option Err
  logErrorFails : Option Err
  handler : Client → HookCall → Except Err Unit
  numRequests : Nat
  rlCore : Nat
  rlGraphql : Nat
  rlSearch : Nat

/-- The memoized acting identity started at construction:
`new GitHub(token).users.getAuthenticated().then(v => v.data.name, () => "unknown")`.
Resolution is a single cached value for the whole run, and every failure
path resolves to the literal "unknown"; reading it is a total function,
so it can never raise. -/
def Env.username (env : Env) : String :=
  match env.identityResult with
  | .ok name => name
  | .error _ => "unknown"

/-- The `readonly` flag: `!!getInput("readonly")` (absent input reads as
the empty string, which is falsy). -/
def readonlyFlag (env : Env) : Bool :=
  if env.readonlyInput = "" then false else true

/-- The repo tag attached to every metric sample. -/
def repoTagOf (c : Ctx) : String :=
  c.repo.owner ++ "/" ++ c.repo.repo

/-- The issue tag attached to every metric sample:
the JS coercion of `context.issue.number` to a string. -/
def issueTagOf (c : Ctx) : String :=
  match c.issueNumber with
  | some n => toString n
  | none => "undefined"

/-- `Action.trackMetric`: when a telemetry sink is configured, forward the
sample enriched with repo, issue, handler id and resolved actor identity;
a no-op when no sink is configured.  The sink call is not guarded, so a
failing delivery raises out of `trackMetric`. -/
def trackMetric (env : Env) (c : Ctx) (name : String) (value : Nat) :
    List Effect × Except Err Unit :=
  if env.aiHandle then
    match env.sinkMetricFails with
    | some f => ([], .error f)
    | none =>
      ([.metric name value (repoTagOf c) (issueTagOf c) env.actionId env.username], .ok ())
  else ([], .ok ())

/-- The self-protection guard at the top of `run()`: it fires exactly when
the configured error-logging issue matches the repository of the event and
the raw `context.payload.issue?.number` field (an absent issue object
never matches). -/
def selfProtects (env : Env) (c : Ctx) : Bool :=
  match env.errorLoggingIssue with
  | none => false
  | some eli =>
    decide (c.repo.repo = eli.repo) && decide (c.repo.owner = eli.owner) &&
      decide (c.payload.issue = some eli.issue)

/-- The routing error raised on an unrecognized sub-action:
`throw Error("Unexpected action: " + context.payload.action)`.  The stack
captured at runtime is not modelled, so it is absent here. -/
def unexpectedActionError (a : String) : Err :=
  { message := "Unexpected action: " ++ a
    stack := none
    stringRepr := "Error: Unexpected action: " ++ a }

/-- The event-kind and sub-action routing table used when an issue number
is present: `issue_comment` maps to `onCommented`; `issues` branches on the
eight recognized sub-actions and otherwise raises the unexpected-action
error; any other event kind falls through to no hook at all. -/
def route (c : Ctx) : Except Err (Option HookCall) :=
  if c.eventName = "issue_comment" then
    .ok (some (.onCommented c.payload.commentBody c.actor))
  else if c.eventName = "issues" then
    if c.payload.action = "opened" then .ok (some .onOpened)
    else if c.payload.action = "reopened" then .ok (some .onReopened)
    else if c.payload.action = "closed" then .ok (some .onClosed)
    else if c.payload.action = "labeled" then .ok (some (.onLabeled c.payload.labelName))
    else if c.payload.action = "assigned" then .ok (some (.onAssigned c.payload.assigneeLogin))
    else if c.payload.action = "unassigned" then
      .ok (some (.onUnassigned c.payload.assigneeLogin))
    else if c.payload.action = "edited" then .ok (some .onEdited)
    else if c.payload.action = "milestoned" then .ok (some .onMilestoned)
    else .error (unexpectedActionError c.payload.action)
  else .ok none

/-- The no-issue branch of the try block: build a repository-scoped client
and invoke `onTriggered` on it. -/
def triggeredStep (env : Env) (c : Ctx) : List Effect × Except Err Unit :=
  let client := Client.repoScoped c.repo (readonlyFlag env)
  ([.hook client .onTriggered], env.handler client .onTriggered)

/-- The issue branch of the try block: build an issue-scoped client, route,
and invoke the matched hook (if any); a routing error raises. -/
def issueStep (env : Env) (c : Ctx) (n : Nat) : List Effect × Except Err Unit :=
  let client := Client.issueScoped c.repo n (readonlyFlag env)
  match route c with
  | .error e => ([], .error e)
  | .ok none => ([], .ok ())
  | .ok (some call) => ([.hook client call], env.handler client call)

/-- The body of the try block of `run()`: read the issue number from the
ambient `context.issue.number` and branch on its JS truthiness (absent or
zero is falsy, so both go to the triggered branch). -/
def dispatch (env : Env) (c : Ctx) : List Effect × Except Err Unit :=
  match c.issueNumber with
  | some n => if n = 0 then triggeredStep env c else issueStep env c n
  | none => triggeredStep env c

/-- The rendered FailureReport of `Action.error`: the fixed three-field
template over `message\nstack`, the resolved actor identity and the
handler id. -/
def renderReport (env : Env) (e : Err) : String :=
  "\nMessage: " ++ e.message ++ "\n" ++ jsInterp e.stack ++
    "\n\nActor: " ++ env.username ++ "\n\nID: " ++ env.actionId ++ "\n"

/-- `Action.error`: deliver the rendered report via `logErrorToIssue` with
the automated flag set (the delivery may itself fail, modelled by the
`logErrorFails` oracle); on success forward the exception to the telemetry
sink when configured, then set the process failure marker with the error
message. -/
def errorStep (env : Env) (e : Err) : List Effect × Except Err Unit :=
  match env.logErrorFails with
  | some f => ([], .error f)
  | none =>
    ([.reportToIssue (renderReport env e) true] ++
      (if env.aiHandle then [.trackException e] else []) ++
      [.setFailed e.message], .ok ())

/-- The outer catch of `run()`: on a caught error, try `Action.error`; if
that itself raises, fall back to writing the raw original error to the
basic log sink.  This step never raises. -/
def catchStep (env : Env) (r : Except Err Unit) : List Effect :=
  match r with
  | .ok _ => []
  | .error e =>
    match errorStep env e with
    | (es, .ok _) => es
    | (es, .error _) => es ++ [.log e.fallbackText]

/-- The four metric emissions at the end of `run()`: the octokit request
count, then the core, graphql and search rate-limit usage read from the
fresh quota snapshot.  Each is a `trackMetric` call, sequenced: a raised
sink failure aborts the remaining emissions. -/
def metricsPhase (env : Env) (c : Ctx) : List Effect × Except Err Unit :=
  let m1 := trackMetric env c "octokit_request_count" env.numRequests
  match m1.2 with
  | .error f => (m1.1, .error f)
  | .ok _ =>
    let m2 := trackMetric env c "usage_core" env.rlCore
    match m2.2 with
    | .error f => (m1.1 ++ m2.1, .error f)
    | .ok _ =>
      let m3 := trackMetric env c "usage_graphql" env.rlGraphql
      match m3.2 with
      | .error f => (m1.1 ++ m2.1 ++ m3.1, .error f)
      | .ok _ =>
        let m4 := trackMetric env c "usage_search" env.rlSearch
        (m1.1 ++ m2.1 ++ m3.1 ++ m4.1, m4.2)

/-- `Action.run`: self-protection short-circuit, else the dispatched try
block, its catch, and the metrics phase; the final outcome is the metrics
phase outcome (the catch never raises). -/
def run (env : Env) (c : Ctx) : List Effect × Except Err Unit :=
  if selfProtects env c then
    ([.log "refusing to run on error logging issue to prevent cascading errors"], .ok ())
  else
    ((dispatch env c).1 ++ catchStep env (dispatch env c).2 ++ (metricsPhase env c).1,
      (metricsPhase env c).2)

/-- Recognizer for handler-hook effects in a trace. -/
def isHookEffect : Effect → Bool
  | .hook _ _ => true
  | _ => false

/-! ### Concrete scenario data -/

/-- A subclass handler that always succeeds. -/
def okHandler : Client → HookCall → Except Err Unit := fun _ _ => .ok ()

/-- A subclass handler that raises the given error on every hook. -/
def errHandler (e : Err) : Client → HookCall → Except Err Unit := fun _ _ => .error e

/-- A sample handler error with message, stack and string rendering. -/
def sampleErr : Err :=
  { message := "boom", stack := some "Error: boom at handler", stringRepr := "Error: boom" }

/-- A sample failure of the error-reporting channel. -/
def deliveryErr : Err :=
  { message := "delivery failed", stack := none, stringRepr := "Error: delivery failed" }

/-- A sample failure of the identity provider. -/
def authErr : Err :=
  { message := "bad credentials", stack := none, stringRepr := "Error: bad credentials" }

/-- A sample failure of the telemetry sink delivery. -/
def sinkErr : Err :=
  { message := "sink down", stack := none, stringRepr := "Error: sink down" }

/-- The labeled-event scenario of the spec: issue 42 of repository o/r,
label "bug". -/
def ctx1 : Ctx :=
  { repo := { owner := "o", repo := "r" }
    payload :=
      { issue := some 42, pullRequest := none, number := none, action := "labeled"
        commentBody := "", labelName := "bug", assigneeLogin := "" }
    eventName := "issues"
    actor := "alice" }

/-- A plain environment: no error-logging issue configured, identity
resolves, sink configured and healthy, report delivery healthy, handler
succeeds. -/
def env1 : Env :=
  { actionId := "TestBot"
    token := "tok"
    readonlyInput := ""
    errorLoggingIssue := none
    identityResult := .ok "bot-name"
    aiHandle := true
    sinkMetricFails := none
    logErrorFails := none
    handler := okHandler
    numRequests := 3
    rlCore := 10
    rlGraphql := 20
    rlSearch := 30 }

/-- The error-logging issue o/r#42, matching the repository and issue of
the labeled scenario. -/
def eliOR42 : ErrorLoggingIssue := { owner := "o", repo := "r", issue := 42 }

/-- The divergence scenario: an issues/closed event whose payload carries
no issue object but a top-level number 7 (so the ambient context issue
number is 7 while the raw payload issue field is absent). -/
def ctx10 : Ctx :=
  { repo := { owner := "o", repo := "r" }
    payload :=
      { issue := none, pullRequest := none, number := some 7, action := "closed"
        commentBody := "", labelName := "", assigneeLogin := "" }
    eventName := "issues"
    actor := "alice" }

/-- The plain environment with o/r#7 configured as the error-logging
issue. -/
def env10 : Env :=
  { env1 with errorLoggingIssue := some { owner := "o", repo := "r", issue := 7 } }

/-! ### Helper lemmas about the phases of a run -/

lemma run_protected (env : Env) (c : Ctx) (h : selfProtects env c = true) :
    run env c =
      ([.log "refusing to run on error logging issue to prevent cascading errors"], .ok ()) := by
  simp [run, h]

lemma run_not_protected (env : Env) (c : Ctx) (h : selfProtects env c = false) :
    run env c =
      ((dispatch env c).1 ++ catchStep env (dispatch env c).2 ++ (metricsPhase env c).1,
        (metricsPhase env c).2) := by
  simp [run, h]

lemma metricsPhase_no_ai (env : Env) (c : Ctx) (hai : env.aiHandle = false) :
    metricsPhase env c = ([], .ok ()) := by
  simp [metricsPhase, trackMetric, hai]

lemma metricsPhase_sink_fail (env : Env) (c : Ctx) (f : Err)
    (hai : env.aiHandle = true) (hs : env.sinkMetricFails = some f) :
    metricsPhase env c = ([], .error f) := by
  simp [metricsPhase, trackMetric, hai, hs]

lemma metricsPhase_delivers (env : Env) (c : Ctx)
    (hai : env.aiHandle = true) (hs : env.sinkMetricFails = none) :
    metricsPhase env c =
      ([.metric "octokit_request_count" env.numRequests (repoTagOf c) (issueTagOf c)
          env.actionId env.username,
        .metric "usage_core" env.rlCore (repoTagOf c) (issueTagOf c) env.actionId env.username,
        .metric "usage_graphql" env.rlGraphql (repoTagOf c) (issueTagOf c) env.actionId
          env.username,
        .metric "usage_search" env.rlSearch (repoTagOf c) (issueTagOf c) env.actionId
          env.username], .ok ()) := by
  simp [metricsPhase, trackMetric, hai, hs]

lemma metricsPhase_snd_ok (env : Env) (c : Ctx) (hs : env.sinkMetricFails = none) :
    (metricsPhase env c).2 = .ok () := by
  cases hai : env.aiHandle
  · rw [metricsPhase_no_ai env c hai]
  · rw [metricsPhase_delivers env c hai hs]

lemma metricsPhase_filter_hook (env : Env) (c : Ctx) :
    (metricsPhase env c).1.filter isHookEffect = [] := by
  cases hai : env.aiHandle
  · rw [metricsPhase_no_ai env c hai]; rfl
  · cases hs : env.sinkMetricFails with
    | none => rw [metricsPhase_delivers env c hai hs]; simp [isHookEffect]
    | some f => rw [metricsPhase_sink_fail env c f hai hs]; rfl

lemma metricsPhase_mem_metric (env : Env) (c : Ctx) (eff : Effect)
    (h : eff ∈ (metricsPhase env c).1) :
    ∃ name value, eff =
      .metric name value (repoTagOf c) (issueTagOf c) env.actionId env.username := by
  cases hai : env.aiHandle
  · rw [metricsPhase_no_ai env c hai] at h; simp at h
  · cases hs : env.sinkMetricFails with
    | none =>
      rw [metricsPhase_delivers env c hai hs] at h
      simp only [List.mem_cons, List.mem_singleton, List.not_mem_nil, or_false] at h
      rcases h with h | h | h | h <;> exact ⟨_, _, h⟩
    | some f => rw [metricsPhase_sink_fail env c f hai hs] at h; simp at h

lemma catchStep_of_ok (env : Env) : catchStep env (.ok ()) = [] := rfl

lemma catchStep_error_delivered (env : Env) (e : Err) (hlog : env.logErrorFails = none) :
    catchStep env (.error e) =
      [.reportToIssue (renderReport env e) true] ++
        (if env.aiHandle then [.trackException e] else []) ++ [.setFailed e.message] := by
  simp [catchStep, errorStep, hlog]

lemma catchStep_error_fallback (env : Env) (e f : Err) (hlog : env.logErrorFails = some f) :
    catchStep env (.error e) = [.log e.fallbackText] := by
  simp [catchStep, errorStep, hlog]

lemma catchStep_filter_hook (env : Env) (r : Except Err Unit) :
    (catchStep env r).filter isHookEffect = [] := by
  cases r with
  | ok v => rfl
  | error e =>
    cases hlog : env.logErrorFails with
    | none =>
      rw [catchStep_error_delivered env e hlog]
      cases env.aiHandle <;> simp [isHookEffect]
    | some f => rw [catchStep_error_fallback env e f hlog]; rfl

lemma catchStep_mem_cases (env : Env) (r : Except Err Unit) (eff : Effect)
    (h : eff ∈ catchStep env r) :
    (∃ e, eff = .reportToIssue (renderReport env e) true) ∨
      (∃ e, eff = .trackException e) ∨ (∃ m, eff = .setFailed m) ∨ (∃ m, eff = .log m) := by
  cases r with
  | ok v => cases v; rw [catchStep_of_ok] at h; simp at h
  | error e =>
    cases hlog : env.logErrorFails with
    | none =>
      rw [catchStep_error_delivered env e hlog] at h
      rcases List.mem_append.mp h with h1 | h1
      · rcases List.mem_append.mp h1 with h2 | h2
        · exact Or.inl ⟨e, List.mem_singleton.mp h2⟩
        · cases hai : env.aiHandle
          · rw [hai] at h2; simp at h2
          · rw [hai] at h2; simp at h2
            exact Or.inr (Or.inl ⟨e, h2⟩)
      · exact Or.inr (Or.inr (Or.inl ⟨e.message, List.mem_singleton.mp h1⟩))
    | some f =>
      rw [catchStep_error_fallback env e f hlog] at h
      simp at h
      exact Or.inr (Or.inr (Or.inr ⟨e.fallbackText, h⟩))

lemma dispatch_fst_cases (env : Env) (c : Ctx) :
    (dispatch env c).1 = [] ∨ ∃ cl call, (dispatch env c).1 = [Effect.hook cl call] := by
  unfold dispatch
  cases hn : c.issueNumber with
  | none => exact Or.inr ⟨_, _, rfl⟩
  | some n =>
    by_cases h0 : n = 0
    · simp only [h0, if_pos rfl]; exact Or.inr ⟨_, _, rfl⟩
    · simp only [if_neg h0]
      unfold issueStep
      cases route c with
      | error e => exact Or.inl rfl
      | ok o =>
        cases o with
        | none => exact Or.inl rfl
        | some call => exact Or.inr ⟨_, _, rfl⟩

/-! ### Claim theorems -/

/-- C1: for every run that passes the self-protection check, with a
configured and non-failing telemetry sink, `run` returns without raising
an error past itself and its trace ends with the four metric samples
(octokit request count, then core, graphql and search rate-limit usage),
regardless of what the routed handler and the error-reporting path did
(both stay universally quantified in the environment). -/
theorem run_always_emits_four_metrics (env : Env) (c : Ctx)
    (hsp : selfProtects env c = false) (hai : env.aiHandle = true)
    (hsink : env.sinkMetricFails = none) :
    (run env c).2 = .ok () ∧
      ∃ pre, (run env c).1 = pre ++
        [.metric "octokit_request_count" env.numRequests (repoTagOf c) (issueTagOf c)
            env.actionId env.username,
          .metric "usage_core" env.rlCore (repoTagOf c) (issueTagOf c) env.actionId env.username,
          .metric "usage_graphql" env.rlGraphql (repoTagOf c) (issueTagOf c) env.actionId
            env.username,
          .metric "usage_search" env.rlSearch (repoTagOf c) (issueTagOf c) env.actionId
            env.username] := by
  have hr := run_not_protected env c hsp
  have hm := metricsPhase_delivers env c hai hsink
  constructor
  · rw [hr, hm]
  · exact ⟨(dispatch env c).1 ++ catchStep env (dispatch env c).2, by rw [hr, hm]⟩

/-- Witness for C1 at the concrete labeled-issue scenario. -/
theorem run_always_emits_four_metrics_witness :
    (run env1 ctx1).2 = .ok () ∧
      ∃ pre, (run env1 ctx1).1 = pre ++
        [.metric "octokit_request_count" env1.numRequests (repoTagOf ctx1) (issueTagOf ctx1)
            env1.actionId env1.username,
          .metric "usage_core" env1.rlCore (repoTagOf ctx1) (issueTagOf ctx1) env1.actionId
            env1.username,
          .metric "usage_graphql" env1.rlGraphql (repoTagOf ctx1) (issueTagOf ctx1) env1.actionId
            env1.username,
          .metric "usage_search" env1.rlSearch (repoTagOf ctx1) (issueTagOf ctx1) env1.actionId
            env1.username] :=
  run_always_emits_four_metrics env1 ctx1 rfl rfl rfl

/-- C2: when the configured error-logging issue matches the repository of
the event and the payload issue field, `run` short-circuits to a single
refusal log line: no handler hook, no FailureReport, no metric sample. -/
theorem run_refuses_on_error_logging_issue (env : Env) (c : Ctx) (eli : ErrorLoggingIssue)
    (h1 : env.errorLoggingIssue = some eli)
    (h2 : c.repo.repo = eli.repo) (h3 : c.repo.owner = eli.owner)
    (h4 : c.payload.issue = some eli.issue) :
    run env c =
      ([.log "refusing to run on error logging issue to prevent cascading errors"], .ok ()) ∧
      ∀ eff ∈ (run env c).1,
        (∀ cl call, eff ≠ .hook cl call) ∧ (∀ r b, eff ≠ .reportToIssue r b) ∧
          ∀ name v rt it idt ut, eff ≠ .metric name v rt it idt ut := by
  have hsp : selfProtects env c = true := by
    simp [selfProtects, h1, h2, h3, h4]
  have hr := run_protected env c hsp
  refine ⟨hr, ?_⟩
  intro eff hmem
  rw [hr] at hmem
  simp only [List.mem_singleton] at hmem
  subst hmem
  refine ⟨fun _ _ => by simp, fun _ _ => by simp, fun _ _ _ _ _ _ => by simp⟩

/-- Witness for C2: the labeled scenario on o/r#42 with o/r#42 configured
as the error-logging issue. -/
theorem run_refuses_on_error_logging_issue_witness :
    run { env1 with errorLoggingIssue := some eliOR42 } ctx1 =
      ([.log "refusing to run on error logging issue to prevent cascading errors"], .ok ()) ∧
      ∀ eff ∈ (run { env1 with errorLoggingIssue := some eliOR42 } ctx1).1,
        (∀ cl call, eff ≠ .hook cl call) ∧ (∀ r b, eff ≠ .reportToIssue r b) ∧
          ∀ name v rt it idt ut, eff ≠ .metric name v rt it idt ut :=
  run_refuses_on_error_logging_issue { env1 with errorLoggingIssue := some eliOR42 } ctx1
    eliOR42 rfl rfl rfl rfl

lemma route_of_recognized (c : Ctx) (call : HookCall)
    (hmap :
      (c.eventName = "issue_comment" ∧ call = .onCommented c.payload.commentBody c.actor) ∨
        (c.eventName = "issues" ∧
          ((c.payload.action = "opened" ∧ call = .onOpened) ∨
            (c.payload.action = "reopened" ∧ call = .onReopened) ∨
            (c.payload.action = "closed" ∧ call = .onClosed) ∨
            (c.payload.action = "labeled" ∧ call = .onLabeled c.payload.labelName) ∨
            (c.payload.action = "assigned" ∧ call = .onAssigned c.payload.assigneeLogin) ∨
            (c.payload.action = "unassigned" ∧ call = .onUnassigned c.payload.assigneeLogin) ∨
            (c.payload.action = "edited" ∧ call = .onEdited) ∨
            (c.payload.action = "milestoned" ∧ call = .onMilestoned)))) :
    route c = .ok (some call) := by
  rcases hmap with ⟨hev, hc⟩ | ⟨hev, hs⟩
  · subst hc; simp [route, hev]
  · rcases hs with ⟨ha, hc⟩ | ⟨ha, hc⟩ | ⟨ha, hc⟩ | ⟨ha, hc⟩ | ⟨ha, hc⟩ | ⟨ha, hc⟩ |
      ⟨ha, hc⟩ | ⟨ha, hc⟩ <;>
    subst hc <;> simp [route, hev, ha]

lemma dispatch_issue (env : Env) (c : Ctx) (n : Nat) (call : HookCall)
    (hn : c.issueNumber = some n) (hn0 : n ≠ 0) (hroute : route c = .ok (some call)) :
    dispatch env c =
      ([.hook (.issueScoped c.repo n (readonlyFlag env)) call],
        env.handler (.issueScoped c.repo n (readonlyFlag env)) call) := by
  unfold dispatch
  simp only [hn, if_neg hn0]
  unfold issueStep
  rw [hroute]

lemma dispatch_triggered (env : Env) (c : Ctx)
    (hn : c.issueNumber = none ∨ c.issueNumber = some 0) :
    dispatch env c =
      ([.hook (.repoScoped c.repo (readonlyFlag env)) .onTriggered],
        env.handler (.repoScoped c.repo (readonlyFlag env)) .onTriggered) := by
  unfold dispatch
  rcases hn with hn | hn <;> simp only [hn] <;> rfl

/-- C3: for every event with a truthy issue number and a recognized
kind/sub-action (the mapping written out in the hypothesis), `run` invokes
exactly one handler hook, namely the matched one on the issue-scoped
client, and no other hook during that run. -/
theorem run_invokes_exactly_matched_hook (env : Env) (c : Ctx) (n : Nat) (call : HookCall)
    (hsp : selfProtects env c = false)
    (hn : c.issueNumber = some n) (hn0 : n ≠ 0)
    (hmap :
      (c.eventName = "issue_comment" ∧ call = .onCommented c.payload.commentBody c.actor) ∨
        (c.eventName = "issues" ∧
          ((c.payload.action = "opened" ∧ call = .onOpened) ∨
            (c.payload.action = "reopened" ∧ call = .onReopened) ∨
            (c.payload.action = "closed" ∧ call = .onClosed) ∨
            (c.payload.action = "labeled" ∧ call = .onLabeled c.payload.labelName) ∨
            (c.payload.action = "assigned" ∧ call = .onAssigned c.payload.assigneeLogin) ∨
            (c.payload.action = "unassigned" ∧ call = .onUnassigned c.payload.assigneeLogin) ∨
            (c.payload.action = "edited" ∧ call = .onEdited) ∨
            (c.payload.action = "milestoned" ∧ call = .onMilestoned)))) :
    (run env c).1.filter isHookEffect =
      [.hook (.issueScoped c.repo n (readonlyFlag env)) call] := by
  have hroute := route_of_recognized c call hmap
  have hd := dispatch_issue env c n call hn hn0 hroute
  rw [run_not_protected env c hsp, List.filter_append, List.filter_append,
    catchStep_filter_hook, metricsPhase_filter_hook, hd]
  simp [isHookEffect]

/-- Witness for C3: the labeled scenario invokes exactly
`onLabeled(client-for-issue-42, "bug")`. -/
theorem run_invokes_exactly_matched_hook_witness :
    (run env1 ctx1).1.filter isHookEffect =
      [.hook (.issueScoped ctx1.repo 42 (readonlyFlag env1)) (.onLabeled "bug")] :=
  run_invokes_exactly_matched_hook env1 ctx1 42 (.onLabeled "bug") rfl rfl (by decide)
    (Or.inr ⟨rfl, Or.inr (Or.inr (Or.inr (Or.inl ⟨rfl, rfl⟩)))⟩)

/-- C4: every error caught by the outer catch, when report delivery works,
puts the rendered FailureReport on the tracking issue with the automated
flag set, forwards the exception to the telemetry sink when configured,
and sets the process failure marker with the error message; this signaling
raises nothing further, so the run continues into the metrics phase and
its outcome is exactly the metrics-phase outcome. -/
theorem caught_error_delivers_report (env : Env) (c : Ctx) (e : Err)
    (hsp : selfProtects env c = false)
    (hd : (dispatch env c).2 = .error e)
    (hlog : env.logErrorFails = none) :
    (run env c).1 =
      (dispatch env c).1 ++
        ([.reportToIssue (renderReport env e) true] ++
          (if env.aiHandle then [.trackException e] else []) ++ [.setFailed e.message]) ++
        (metricsPhase env c).1 ∧
      (run env c).2 = (metricsPhase env c).2 := by
  have hr := run_not_protected env c hsp
  have hc : catchStep env (dispatch env c).2 =
      [Effect.reportToIssue (renderReport env e) true] ++
        (if env.aiHandle then [Effect.trackException e] else []) ++
        [Effect.setFailed e.message] := by
    rw [hd]
    exact catchStep_error_delivered env e hlog
  exact ⟨by rw [hr, hc], by rw [hr]⟩

/-- Witness for C4: the labeled scenario with a throwing handler. -/
theorem caught_error_delivers_report_witness :
    (run { env1 with handler := errHandler sampleErr } ctx1).1 =
      (dispatch { env1 with handler := errHandler sampleErr } ctx1).1 ++
        ([.reportToIssue (renderReport { env1 with handler := errHandler sampleErr } sampleErr)
            true] ++
          (if ({ env1 with handler := errHandler sampleErr } : Env).aiHandle then
            [.trackException sampleErr] else []) ++ [.setFailed sampleErr.message]) ++
        (metricsPhase { env1 with handler := errHandler sampleErr } ctx1).1 ∧
      (run { env1 with handler := errHandler sampleErr } ctx1).2 =
        (metricsPhase { env1 with handler := errHandler sampleErr } ctx1).2 :=
  caught_error_delivers_report { env1 with handler := errHandler sampleErr } ctx1 sampleErr
    rfl rfl rfl

/-- C5: when FailureReport delivery itself fails, the raw original error
is written to the basic log sink (its truthy stack, else its truthy
message, else its stringified value), nothing propagates past the
fallback, and the run still proceeds to the metrics phase. -/
theorem report_failure_falls_back_to_log (env : Env) (c : Ctx) (e f : Err)
    (hsp : selfProtects env c = false)
    (hd : (dispatch env c).2 = .error e)
    (hlog : env.logErrorFails = some f) :
    (run env c).1 =
      (dispatch env c).1 ++ [.log e.fallbackText] ++ (metricsPhase env c).1 ∧
      (run env c).2 = (metricsPhase env c).2 ∧
      (∀ s, e.stack = some s → s ≠ "" → e.fallbackText = s) ∧
      ((e.stack = none ∨ e.stack = some "") → e.message ≠ "" →
        e.fallbackText = e.message) ∧
      ((e.stack = none ∨ e.stack = some "") → e.message = "" →
        e.fallbackText = e.stringRepr) := by
  have hr := run_not_protected env c hsp
  have hc : catchStep env (dispatch env c).2 = [Effect.log e.fallbackText] := by
    rw [hd]
    exact catchStep_error_fallback env e f hlog
  refine ⟨by rw [hr, hc], by rw [hr], ?_, ?_, ?_⟩
  · intro s hs hne
    simp [Err.fallbackText, hs, hne]
  · rintro (hs | hs) hm <;> simp [Err.fallbackText, hs, hm]
  · rintro (hs | hs) hm <;> simp [Err.fallbackText, hs, hm]

/-- Witness for C5: throwing handler plus failing report delivery. -/
theorem report_failure_falls_back_to_log_witness :
    (run { env1 with handler := errHandler sampleErr, logErrorFails := some deliveryErr }
        ctx1).1 =
      (dispatch { env1 with handler := errHandler sampleErr, logErrorFails := some deliveryErr }
          ctx1).1 ++
        [.log sampleErr.fallbackText] ++
        (metricsPhase
          { env1 with handler := errHandler sampleErr, logErrorFails := some deliveryErr }
          ctx1).1 ∧
      (run { env1 with handler := errHandler sampleErr, logErrorFails := some deliveryErr }
          ctx1).2 =
        (metricsPhase
          { env1 with handler := errHandler sampleErr, logErrorFails := some deliveryErr }
          ctx1).2 ∧
      (∀ s, sampleErr.stack = some s → s ≠ "" → sampleErr.fallbackText = s) ∧
      ((sampleErr.stack = none ∨ sampleErr.stack = some "") → sampleErr.message ≠ "" →
        sampleErr.fallbackText = sampleErr.message) ∧
      ((sampleErr.stack = none ∨ sampleErr.stack = some "") → sampleErr.message = "" →
        sampleErr.fallbackText = sampleErr.stringRepr) :=
  report_failure_falls_back_to_log
    { env1 with handler := errHandler sampleErr, logErrorFails := some deliveryErr } ctx1
    sampleErr deliveryErr rfl rfl rfl

/-- C6: acting-identity resolution is total (reading it cannot raise), and
when the single memoized resolution fails, every read of the identity
during the run degrades to the literal "unknown": the user tag of every
metric sample is "unknown", every delivered FailureReport is the rendered
template, and the rendered template carries Actor "unknown". -/
theorem identity_failure_reads_unknown (env : Env) (c : Ctx) (err : Err)
    (hid : env.identityResult = .error err) :
    env.username = "unknown" ∧
      (∀ name value rt it idt ut,
        Effect.metric name value rt it idt ut ∈ (run env c).1 → ut = "unknown") ∧
      (∀ r b, Effect.reportToIssue r b ∈ (run env c).1 → ∃ e, r = renderReport env e) ∧
      (∀ e, renderReport env e =
        "\nMessage: " ++ e.message ++ "\n" ++ jsInterp e.stack ++ "\n\nActor: " ++ "unknown" ++
          "\n\nID: " ++ env.actionId ++ "\n") := by
  have hu : env.username = "unknown" := by simp [Env.username, hid]
  refine ⟨hu, ?_, ?_, ?_⟩
  · intro name value rt it idt ut hmem
    cases hsp : selfProtects env c with
    | true =>
      rw [run_protected env c hsp] at hmem
      simp at hmem
    | false =>
      rw [run_not_protected env c hsp] at hmem
      rcases List.mem_append.mp hmem with h1 | h1
      · rcases List.mem_append.mp h1 with h2 | h2
        · rcases dispatch_fst_cases env c with hdf | ⟨cl, call, hdf⟩ <;> rw [hdf] at h2 <;>
            simp at h2
        · rcases catchStep_mem_cases env _ _ h2 with ⟨e, he⟩ | ⟨e, he⟩ | ⟨m, he⟩ | ⟨m, he⟩ <;>
            simp at he
      · obtain ⟨name2, value2, heq⟩ := metricsPhase_mem_metric env c _ h1
        simp only [Effect.metric.injEq] at heq
        rw [heq.2.2.2.2.2, hu]
  · intro r b hmem
    cases hsp : selfProtects env c with
    | true =>
      rw [run_protected env c hsp] at hmem
      simp at hmem
    | false =>
      rw [run_not_protected env c hsp] at hmem
      rcases List.mem_append.mp hmem with h1 | h1
      · rcases List.mem_append.mp h1 with h2 | h2
        · rcases dispatch_fst_cases env c with hdf | ⟨cl, call, hdf⟩ <;> rw [hdf] at h2 <;>
            simp at h2
        · rcases catchStep_mem_cases env _ _ h2 with ⟨e, he⟩ | ⟨e, he⟩ | ⟨m, he⟩ | ⟨m, he⟩
          · simp only [Effect.reportToIssue.injEq] at he
            exact ⟨e, he.1⟩
          · exact absurd he (by simp)
          · exact absurd he (by simp)
          · exact absurd he (by simp)
      · obtain ⟨name2, value2, heq⟩ := metricsPhase_mem_metric env c _ h1
        simp at heq
  · intro e
    rw [renderReport, hu]

/-- Witness for C6: failing identity provider on the labeled scenario. -/
theorem identity_failure_reads_unknown_witness :
    ({ env1 with identityResult := .error authErr } : Env).username = "unknown" ∧
      (∀ name value rt it idt ut,
        Effect.metric name value rt it idt ut ∈
            (run { env1 with identityResult := .error authErr } ctx1).1 → ut = "unknown") ∧
      (∀ r b,
        Effect.reportToIssue r b ∈
            (run { env1 with identityResult := .error authErr } ctx1).1 →
          ∃ e, r = renderReport { env1 with identityResult := .error authErr } e) ∧
      (∀ e, renderReport { env1 with identityResult := .error authErr } e =
        "\nMessage: " ++ e.message ++ "\n" ++ jsInterp e.stack ++ "\n\nActor: " ++ "unknown" ++
          "\n\nID: " ++ ({ env1 with identityResult := .error authErr } : Env).actionId ++
          "\n") :=
  identity_failure_reads_unknown { env1 with identityResult := .error authErr } ctx1 authErr rfl

/-- C7: an issues event with a truthy issue number and an unrecognized
sub-action makes the routing step raise the unexpected-action error; the
single outer catch captures it and delivers it as a FailureReport, and
(with a healthy sink) the run still returns normally instead of crashing
with an unhandled error. -/
theorem unexpected_action_is_caught_and_reported (env : Env) (c : Ctx) (n : Nat)
    (hsp : selfProtects env c = false)
    (hn : c.issueNumber = some n) (hn0 : n ≠ 0)
    (hev : c.eventName = "issues")
    (ha : c.payload.action ∉
      ["opened", "reopened", "closed", "labeled", "assigned", "unassigned", "edited",
        "milestoned"])
    (hlog : env.logErrorFails = none)
    (hsink : env.sinkMetricFails = none) :
    (dispatch env c).2 = .error (unexpectedActionError c.payload.action) ∧
      Effect.reportToIssue (renderReport env (unexpectedActionError c.payload.action)) true ∈
        (run env c).1 ∧
      (run env c).2 = .ok () := by
  simp only [List.mem_cons, List.not_mem_nil, or_false, not_or] at ha
  obtain ⟨a1, a2, a3, a4, a5, a6, a7, a8⟩ := ha
  have hroute : route c = .error (unexpectedActionError c.payload.action) := by
    simp [route, hev, a1, a2, a3, a4, a5, a6, a7, a8]
  have hd : dispatch env c = ([], .error (unexpectedActionError c.payload.action)) := by
    unfold dispatch
    simp only [hn, if_neg hn0]
    unfold issueStep
    rw [hroute]
  have hc := catchStep_error_delivered env (unexpectedActionError c.payload.action) hlog
  refine ⟨by rw [hd], ?_, ?_⟩
  · rw [run_not_protected env c hsp, hd]
    simp [hc]
  · rw [run_not_protected env c hsp]
    exact metricsPhase_snd_ok env c hsink

/-- Witness for C7: sub-action "deleted" on the issue-42 scenario. -/
theorem unexpected_action_is_caught_and_reported_witness :
    (dispatch env1 { ctx1 with payload := { ctx1.payload with action := "deleted" } }).2 =
        .error (unexpectedActionError "deleted") ∧
      Effect.reportToIssue (renderReport env1 (unexpectedActionError "deleted")) true ∈
        (run env1 { ctx1 with payload := { ctx1.payload with action := "deleted" } }).1 ∧
      (run env1 { ctx1 with payload := { ctx1.payload with action := "deleted" } }).2 =
        .ok () :=
  unexpected_action_is_caught_and_reported env1
    { ctx1 with payload := { ctx1.payload with action := "deleted" } } 42 rfl rfl (by decide)
    rfl (by decide) rfl rfl

/-- C8: for every event whose ambient issue number is absent (or falsy),
`run` invokes `onTriggered` on a repository-scoped client, and that is the
only handler hook invoked during the run. -/
theorem no_issue_invokes_onTriggered (env : Env) (c : Ctx)
    (hsp : selfProtects env c = false)
    (hn : c.issueNumber = none ∨ c.issueNumber = some 0) :
    (run env c).1.filter isHookEffect =
      [.hook (.repoScoped c.repo (readonlyFlag env)) .onTriggered] := by
  have hd := dispatch_triggered env c hn
  rw [run_not_protected env c hsp, List.filter_append, List.filter_append,
    catchStep_filter_hook, metricsPhase_filter_hook, hd]
  simp [isHookEffect]

/-- Witness for C8: the labeled-scenario context with the payload issue
object removed carries no issue number, so `onTriggered` fires. -/
theorem no_issue_invokes_onTriggered_witness :
    (run env1 { ctx1 with payload := { ctx1.payload with issue := none } }).1.filter
        isHookEffect =
      [.hook
        (.repoScoped ({ ctx1 with payload := { ctx1.payload with issue := none } } : Ctx).repo
          (readonlyFlag env1)) .onTriggered] :=
  no_issue_invokes_onTriggered env1 { ctx1 with payload := { ctx1.payload with issue := none } }
    rfl (Or.inl rfl)

/-- C9 (evaluation at the failing input): with a telemetry sink configured
whose delivery raises, `trackMetric` propagates the sink failure instead
of absorbing it, and the whole run raises past itself — the sink call in
the source has no defensive guard. -/
theorem trackMetric_sink_failure_escapes :
    trackMetric { env1 with sinkMetricFails := some sinkErr } ctx1 "octokit_request_count" 3 =
        ([], .error sinkErr) ∧
      (run { env1 with sinkMetricFails := some sinkErr } ctx1).2 = .error sinkErr :=
  ⟨rfl, rfl⟩

/-- C10: the self-protection guard reads the raw payload issue field while
routing reads the ambient context issue number, and the two can diverge:
a concrete issues/closed event whose payload carries no issue object but
whose top-level payload number is 7, in the very repository of the
configured error-logging issue o/r#7, passes the guard and still gets a
handler invoked on the issue-scoped client for issue 7. -/
theorem guard_and_routing_read_different_fields :
    ctx10.payload.issue = none ∧
      ctx10.issueNumber = some 7 ∧
      env10.errorLoggingIssue = some { owner := "o", repo := "r", issue := 7 } ∧
      ctx10.repo = { owner := "o", repo := "r" } ∧
      selfProtects env10 ctx10 = false ∧
      (run env10 ctx10).1.filter isHookEffect =
        [.hook (.issueScoped { owner := "o", repo := "r" } 7 false) .onClosed] :=
  ⟨rfl, rfl, rfl, rfl, rfl, rfl⟩

end VSCodeTriage
